import Mathlib

/-!
Shallow embedding of the fabless foundry capacity-allocation ROI calculator
(src/src/index.js).  The only domain logic in the source is the pure function
calculateResults (lines 46-63), which maps five numeric inputs to six derived
financial metrics.  JavaScript numbers are modelled as exact rationals,
abstracting IEEE-754 rounding; the special values Infinity, -Infinity and NaN
that JavaScript division by zero produces are modelled by the type JSNum, and
jsDiv gives JavaScript division semantics on finite operands (x/0 is +Infinity
for x > 0, -Infinity for x < 0, and 0/0 is NaN).
-/

/-- Result of a JavaScript arithmetic operation: a finite rational, positive
infinity, negative infinity, or NaN. -/
inductive JSNum where
  | fin (q : ℚ)
  | posInf
  | negInf
  | nan
deriving DecidableEq, Repr

/-- JavaScript division of two finite numbers: division by zero yields a
signed infinity, zero over zero yields NaN, otherwise the exact quotient. -/
def jsDiv (a b : ℚ) : JSNum :=
  if b = 0 then
    if a = 0 then JSNum.nan
    else if 0 < a then JSNum.posInf
    else JSNum.negInf
  else JSNum.fin (a / b)

/-- JavaScript multiplication of a (possibly non-finite) number by a finite
constant: NaN propagates, an infinity times zero is NaN, an infinity times a
nonzero constant is an infinity of the product sign. -/
def JSNum.mulQ : JSNum → ℚ → JSNum
  | JSNum.fin q, c => JSNum.fin (q * c)
  | JSNum.posInf, c => if c = 0 then JSNum.nan else if 0 < c then JSNum.posInf else JSNum.negInf
  | JSNum.negInf, c => if c = 0 then JSNum.nan else if 0 < c then JSNum.negInf else JSNum.posInf
  | JSNum.nan, _ => JSNum.nan

/-- JavaScript comparison x <= y: false whenever either operand is NaN,
otherwise the numeric order with -Infinity below and +Infinity above every
finite value. -/
def JSNum.jsLe : JSNum → JSNum → Bool
  | JSNum.nan, _ => false
  | _, JSNum.nan => false
  | JSNum.negInf, _ => true
  | _, JSNum.negInf => false
  | _, JSNum.posInf => true
  | JSNum.posInf, _ => false
  | JSNum.fin a, JSNum.fin b => decide (a ≤ b)

/-- The five input parameters of the calculator (source lines 8-14 name them;
the spec calls this record CalculatorInputs).  All are finite numbers; no
range validation is performed by the source. -/
structure CalculatorInputs where
  annualWaferDemand : ℚ
  waferCost : ℚ
  prepayment : ℚ
  priceDiscount : ℚ
  flexibilityBand : ℚ
deriving DecidableEq, Repr

/-- The six derived metrics returned by calculateResults (source lines 55-62).
The four monetary fields are products and quotients by the nonzero constant
100, hence always finite; the two ROI fields divide by prepaymentAmount,
which can be zero, so they carry JavaScript special values. -/
structure CalculatorResults where
  baseCost : ℚ
  prepaymentAmount : ℚ
  costSavings : ℚ
  flexibilityValue : ℚ
  baseROI : JSNum
  totalROI : JSNum
deriving DecidableEq, Repr

/-- Embedding of calculateResults (source lines 46-63), computed in the same
order as the source: baseCost, then prepaymentAmount, costSavings and
flexibilityValue from baseCost, then the two ROI ratios.  The literal 0.20 of
line 50 is the exact rational 1/5. -/
def calculateResults (inputs : CalculatorInputs) : CalculatorResults :=
  let baseCost := inputs.annualWaferDemand * inputs.waferCost
  let prepaymentAmount := baseCost * (inputs.prepayment / 100)
  let costSavings := baseCost * (inputs.priceDiscount / 100)
  let flexibilityValue := baseCost * (inputs.flexibilityBand / 100) * (0.20 : ℚ)
  let baseROI := (jsDiv costSavings prepaymentAmount).mulQ 100
  let totalROI := (jsDiv (costSavings + flexibilityValue) prepaymentAmount).mulQ 100
  { baseCost := baseCost
    prepaymentAmount := prepaymentAmount
    costSavings := costSavings
    flexibilityValue := flexibilityValue
    baseROI := baseROI
    totalROI := totalROI }

/-- The default inputs installed by the component state (source lines 8-14). -/
def defaultInputs : CalculatorInputs :=
  { annualWaferDemand := 30000
    waferCost := 8000
    prepayment := 10
    priceDiscount := 5
    flexibilityBand := 30 }

/-- Inputs equal to the defaults except for a negative prepayment percentage
(accepted by the source, which performs no range validation). -/
def negPrepaymentInputs : CalculatorInputs :=
  { annualWaferDemand := 30000
    waferCost := 8000
    prepayment := -10
    priceDiscount := 5
    flexibilityBand := 30 }

/-- Inputs equal to the defaults except prepayment is zero. -/
def zeroPrepaymentInputs : CalculatorInputs :=
  { annualWaferDemand := 30000
    waferCost := 8000
    prepayment := 0
    priceDiscount := 5
    flexibilityBand := 30 }

/-- Inputs with zero discount and zero flexibility band at 10 percent
prepayment, with the default demand and wafer cost. -/
def zeroDiscountInputs : CalculatorInputs :=
  { annualWaferDemand := 30000
    waferCost := 8000
    prepayment := 10
    priceDiscount := 0
    flexibilityBand := 0 }

/-- Inputs with zero discount and zero flexibility band at 10 percent
prepayment, but with zero annual wafer demand. -/
def zeroDemandZeroDiscountInputs : CalculatorInputs :=
  { annualWaferDemand := 0
    waferCost := 8000
    prepayment := 10
    priceDiscount := 0
    flexibilityBand := 0 }

/-- Inputs equal to the defaults except the annual wafer demand is zero. -/
def zeroDemandInputs : CalculatorInputs :=
  { annualWaferDemand := 0
    waferCost := 8000
    prepayment := 10
    priceDiscount := 5
    flexibilityBand := 30 }

/-- The same inputs with the annual wafer demand doubled and every other
field unchanged. -/
def doubleDemand (i : CalculatorInputs) : CalculatorInputs :=
  { i with annualWaferDemand := 2 * i.annualWaferDemand }

/-- JavaScript division with a nonzero denominator is the exact finite
quotient. -/
theorem jsDiv_of_ne (a b : ℚ) (hb : b ≠ 0) : jsDiv a b = JSNum.fin (a / b) := by
  simp [jsDiv, hb]

/-- Scaling both operands of a JavaScript division by the same positive
constant leaves the result unchanged, including the special values produced
by a zero denominator. -/
theorem jsDiv_mul_left (c a b : ℚ) (hc : 0 < c) : jsDiv (c * a) (c * b) = jsDiv a b := by
  have hc0 : c ≠ 0 := ne_of_gt hc
  by_cases hb : b = 0
  · subst hb
    rw [mul_zero]
    by_cases ha : a = 0
    · simp [jsDiv, ha]
    · have h1 : c * a ≠ 0 := mul_ne_zero hc0 ha
      by_cases ha2 : 0 < a
      · simp [jsDiv, ha, ha2, h1, mul_pos hc ha2]
      · have h2 : ¬0 < c * a := by
          push_neg at ha2 ⊢
          exact mul_nonpos_of_nonneg_of_nonpos (le_of_lt hc) ha2
        simp [jsDiv, ha, ha2, h1, h2]
  · have h2 : c * b ≠ 0 := mul_ne_zero hc0 hb
    rw [jsDiv_of_ne _ _ h2, jsDiv_of_ne _ _ hb, mul_div_mul_left _ _ hc0]

/-- When the prepayment amount is nonzero, both ROI fields are the finite
exact ratios of the monetary fields of the same result record. -/
theorem roi_fin (i : CalculatorInputs)
    (hpa : (calculateResults i).prepaymentAmount ≠ 0) :
    (calculateResults i).baseROI
      = JSNum.fin ((calculateResults i).costSavings
          / (calculateResults i).prepaymentAmount * 100)
    ∧ (calculateResults i).totalROI
      = JSNum.fin (((calculateResults i).costSavings
            + (calculateResults i).flexibilityValue)
          / (calculateResults i).prepaymentAmount * 100) := by
  have h1 : (calculateResults i).baseROI
      = (jsDiv (calculateResults i).costSavings
          (calculateResults i).prepaymentAmount).mulQ 100 := rfl
  have h2 : (calculateResults i).totalROI
      = (jsDiv ((calculateResults i).costSavings
            + (calculateResults i).flexibilityValue)
          (calculateResults i).prepaymentAmount).mulQ 100 := rfl
  rw [h1, h2, jsDiv_of_ne _ _ hpa, jsDiv_of_ne _ _ hpa]
  exact ⟨rfl, rfl⟩

/-- C1: for every input record with prepayment > 0 the returned baseROI is
(costSavings / prepaymentAmount) * 100 and the returned totalROI is
((costSavings + flexibilityValue) / prepaymentAmount) * 100, where
costSavings, flexibilityValue and prepaymentAmount are the monetary fields of
the same result record; both divisions follow JavaScript semantics, and when
the prepayment amount is nonzero both ROIs are the finite exact ratios. -/
theorem c1_roi_formulas (i : CalculatorInputs) (h : 0 < i.prepayment) :
    (calculateResults i).baseROI
      = (jsDiv (calculateResults i).costSavings
          (calculateResults i).prepaymentAmount).mulQ 100
    ∧ (calculateResults i).totalROI
      = (jsDiv ((calculateResults i).costSavings
            + (calculateResults i).flexibilityValue)
          (calculateResults i).prepaymentAmount).mulQ 100
    ∧ ((calculateResults i).prepaymentAmount ≠ 0 →
        (calculateResults i).baseROI
          = JSNum.fin ((calculateResults i).costSavings
              / (calculateResults i).prepaymentAmount * 100)
        ∧ (calculateResults i).totalROI
          = JSNum.fin (((calculateResults i).costSavings
                + (calculateResults i).flexibilityValue)
              / (calculateResults i).prepaymentAmount * 100)) :=
  ⟨rfl, rfl, fun hpa => roi_fin i hpa⟩

/-- C1 witness at the default inputs. -/
theorem c1_roi_formulas_witness :
    (0 : ℚ) < defaultInputs.prepayment
    ∧ (calculateResults defaultInputs).baseROI
      = (jsDiv (calculateResults defaultInputs).costSavings
          (calculateResults defaultInputs).prepaymentAmount).mulQ 100 :=
  ⟨by norm_num [defaultInputs],
   (c1_roi_formulas defaultInputs (by norm_num [defaultInputs])).1⟩

/-- C2: for every input record the monetary fields satisfy the source
formulas of lines 47-50: baseCost is demand times wafer cost, the prepayment
amount, cost savings and flexibility value are the corresponding percentage
shares of baseCost, and the flexibility value carries the fixed industry
margin factor 0.20, which is exactly the rational 20/100. -/
theorem c2_monetary_formulas (i : CalculatorInputs) :
    (calculateResults i).baseCost = i.annualWaferDemand * i.waferCost
    ∧ (calculateResults i).prepaymentAmount
      = (calculateResults i).baseCost * (i.prepayment / 100)
    ∧ (calculateResults i).costSavings
      = (calculateResults i).baseCost * (i.priceDiscount / 100)
    ∧ (calculateResults i).flexibilityValue
      = (calculateResults i).baseCost * (i.flexibilityBand / 100) * (0.20 : ℚ)
    ∧ (0.20 : ℚ) = 20 / 100 :=
  ⟨rfl, rfl, rfl, rfl, by norm_num⟩

/-- C3: at the default inputs the calculator returns exactly the six values
stated by the spec: baseCost 240000000, prepaymentAmount 24000000,
costSavings 12000000, flexibilityValue 14400000, baseROI 50 and
totalROI 110. -/
theorem c3_default_scenario :
    calculateResults defaultInputs =
    { baseCost := 240000000
      prepaymentAmount := 24000000
      costSavings := 12000000
      flexibilityValue := 14400000
      baseROI := JSNum.fin 50
      totalROI := JSNum.fin 110 } := by
  simp only [calculateResults, defaultInputs, jsDiv, JSNum.mulQ]
  norm_num

/-- C4 counterexample: at a negative prepayment percentage the flexibility
value is nonnegative, yet under JavaScript comparison the totalROI is
strictly below the baseROI (the division by a negative prepayment amount
reverses the order), refuting the claim as stated. -/
theorem c4_monotonic_cex :
    0 ≤ (calculateResults negPrepaymentInputs).flexibilityValue
    ∧ JSNum.jsLe (calculateResults negPrepaymentInputs).baseROI
        (calculateResults negPrepaymentInputs).totalROI = false := by
  constructor
  · norm_num [calculateResults, negPrepaymentInputs]
  · simp only [calculateResults, negPrepaymentInputs, jsDiv, JSNum.mulQ]
    norm_num [JSNum.jsLe]

/-- C4 amended: for every input whose computed flexibility value is
nonnegative and whose computed prepayment amount is positive, the totalROI
is greater than or equal to the baseROI under JavaScript comparison. -/
theorem c4_monotonic (i : CalculatorInputs)
    (hfv : 0 ≤ (calculateResults i).flexibilityValue)
    (hpa : 0 < (calculateResults i).prepaymentAmount) :
    JSNum.jsLe (calculateResults i).baseROI (calculateResults i).totalROI = true := by
  obtain ⟨e1, e2⟩ := roi_fin i (ne_of_gt hpa)
  rw [e1, e2]
  simp only [JSNum.jsLe, decide_eq_true_eq]
  have hle : (calculateResults i).costSavings
      ≤ (calculateResults i).costSavings + (calculateResults i).flexibilityValue :=
    le_add_of_nonneg_right hfv
  have hdiv := div_le_div_of_nonneg_right hle (le_of_lt hpa)
  exact mul_le_mul_of_nonneg_right hdiv (by norm_num)

/-- C4 witness at the default inputs. -/
theorem c4_monotonic_witness :
    0 ≤ (calculateResults defaultInputs).flexibilityValue
    ∧ 0 < (calculateResults defaultInputs).prepaymentAmount
    ∧ JSNum.jsLe (calculateResults defaultInputs).baseROI
        (calculateResults defaultInputs).totalROI = true := by
  have h1 : 0 ≤ (calculateResults defaultInputs).flexibilityValue := by
    norm_num [calculateResults, defaultInputs]
  have h2 : 0 < (calculateResults defaultInputs).prepaymentAmount := by
    norm_num [calculateResults, defaultInputs]
  exact ⟨h1, h2, c4_monotonic defaultInputs h1 h2⟩

/-- C5: doubling the annual wafer demand while holding the other four inputs
fixed doubles all four monetary outputs and leaves both ROI outputs
unchanged. -/
theorem c5_scaling (i : CalculatorInputs) :
    (calculateResults (doubleDemand i)).baseCost
      = 2 * (calculateResults i).baseCost
    ∧ (calculateResults (doubleDemand i)).prepaymentAmount
      = 2 * (calculateResults i).prepaymentAmount
    ∧ (calculateResults (doubleDemand i)).costSavings
      = 2 * (calculateResults i).costSavings
    ∧ (calculateResults (doubleDemand i)).flexibilityValue
      = 2 * (calculateResults i).flexibilityValue
    ∧ (calculateResults (doubleDemand i)).baseROI = (calculateResults i).baseROI
    ∧ (calculateResults (doubleDemand i)).totalROI = (calculateResults i).totalROI := by
  have ecs : (calculateResults (doubleDemand i)).costSavings
      = 2 * (calculateResults i).costSavings := by
    simp only [calculateResults, doubleDemand]
    ring
  have epa : (calculateResults (doubleDemand i)).prepaymentAmount
      = 2 * (calculateResults i).prepaymentAmount := by
    simp only [calculateResults, doubleDemand]
    ring
  have efv : (calculateResults (doubleDemand i)).flexibilityValue
      = 2 * (calculateResults i).flexibilityValue := by
    simp only [calculateResults, doubleDemand]
    ring
  have ebase : (calculateResults (doubleDemand i)).baseROI
      = (jsDiv (calculateResults (doubleDemand i)).costSavings
          (calculateResults (doubleDemand i)).prepaymentAmount).mulQ 100 := rfl
  have etotal : (calculateResults (doubleDemand i)).totalROI
      = (jsDiv ((calculateResults (doubleDemand i)).costSavings
            + (calculateResults (doubleDemand i)).flexibilityValue)
          (calculateResults (doubleDemand i)).prepaymentAmount).mulQ 100 := rfl
  refine ⟨?_, epa, ecs, efv, ?_, ?_⟩
  · simp only [calculateResults, doubleDemand]
    ring
  · rw [ebase, ecs, epa, jsDiv_mul_left 2 _ _ (by norm_num)]
    rfl
  · rw [etotal, ecs, efv, epa, ← mul_add, jsDiv_mul_left 2 _ _ (by norm_num)]
    rfl

/-- C6: with a zero prepayment percentage the prepayment amount is zero and
the unguarded divisions propagate the JavaScript special values: each ROI is
positive infinity when its numerator is positive and NaN when its numerator
is zero. -/
theorem c6_zero_prepayment (i : CalculatorInputs) (h : i.prepayment = 0) :
    (calculateResults i).prepaymentAmount = 0
    ∧ (0 < (calculateResults i).costSavings →
        (calculateResults i).baseROI = JSNum.posInf)
    ∧ ((calculateResults i).costSavings = 0 →
        (calculateResults i).baseROI = JSNum.nan)
    ∧ (0 < (calculateResults i).costSavings + (calculateResults i).flexibilityValue →
        (calculateResults i).totalROI = JSNum.posInf)
    ∧ ((calculateResults i).costSavings + (calculateResults i).flexibilityValue = 0 →
        (calculateResults i).totalROI = JSNum.nan) := by
  have hpa : (calculateResults i).prepaymentAmount = 0 := by
    simp [calculateResults, h]
  have hb : (calculateResults i).baseROI
      = (jsDiv (calculateResults i).costSavings
          (calculateResults i).prepaymentAmount).mulQ 100 := rfl
  have ht : (calculateResults i).totalROI
      = (jsDiv ((calculateResults i).costSavings
            + (calculateResults i).flexibilityValue)
          (calculateResults i).prepaymentAmount).mulQ 100 := rfl
  refine ⟨hpa, ?_, ?_, ?_, ?_⟩
  · intro hcs
    rw [hb, hpa]
    simp [jsDiv, JSNum.mulQ, ne_of_gt hcs, hcs]
  · intro hcs
    rw [hb, hpa]
    simp [jsDiv, JSNum.mulQ, hcs]
  · intro hnum
    rw [ht, hpa]
    simp [jsDiv, JSNum.mulQ, ne_of_gt hnum, hnum]
  · intro hnum
    rw [ht, hpa]
    simp [jsDiv, JSNum.mulQ, hnum]

/-- C6 witness: zero prepayment with the default positive discount and band
yields a zero prepayment amount and both ROIs positive infinity. -/
theorem c6_zero_prepayment_witness :
    (calculateResults zeroPrepaymentInputs).prepaymentAmount = 0
    ∧ (calculateResults zeroPrepaymentInputs).baseROI = JSNum.posInf
    ∧ (calculateResults zeroPrepaymentInputs).totalROI = JSNum.posInf := by
  have h := c6_zero_prepayment zeroPrepaymentInputs rfl
  exact ⟨h.1,
    h.2.1 (by norm_num [calculateResults, zeroPrepaymentInputs]),
    h.2.2.2.1 (by norm_num [calculateResults, zeroPrepaymentInputs])⟩

/-- C7 counterexample: zero discount, zero band and 10 percent prepayment
with a zero annual wafer demand make the divisions 0/0, so both ROIs are NaN
rather than the zero claimed for arbitrary demand and wafer cost. -/
theorem c7_zero_discount_cex :
    (calculateResults zeroDemandZeroDiscountInputs).baseROI = JSNum.nan
    ∧ (calculateResults zeroDemandZeroDiscountInputs).totalROI = JSNum.nan
    ∧ (calculateResults zeroDemandZeroDiscountInputs).baseROI ≠ JSNum.fin 0
    ∧ (calculateResults zeroDemandZeroDiscountInputs).totalROI ≠ JSNum.fin 0 := by
  have hb : (calculateResults zeroDemandZeroDiscountInputs).baseROI = JSNum.nan := by
    simp [calculateResults, zeroDemandZeroDiscountInputs, jsDiv, JSNum.mulQ]
  have ht : (calculateResults zeroDemandZeroDiscountInputs).totalROI = JSNum.nan := by
    simp [calculateResults, zeroDemandZeroDiscountInputs, jsDiv, JSNum.mulQ]
  refine ⟨hb, ht, ?_, ?_⟩
  · rw [hb]
    exact fun hc => JSNum.noConfusion hc
  · rw [ht]
    exact fun hc => JSNum.noConfusion hc

/-- C7 amended: with zero discount, zero flexibility band, 10 percent
prepayment and a nonzero base cost (demand times wafer cost nonzero), the
cost savings and flexibility value are zero and both ROIs are exactly
zero. -/
theorem c7_zero_discount (i : CalculatorInputs)
    (hd : i.priceDiscount = 0) (hf : i.flexibilityBand = 0)
    (hp : i.prepayment = 10)
    (hbc : i.annualWaferDemand * i.waferCost ≠ 0) :
    (calculateResults i).costSavings = 0
    ∧ (calculateResults i).flexibilityValue = 0
    ∧ (calculateResults i).baseROI = JSNum.fin 0
    ∧ (calculateResults i).totalROI = JSNum.fin 0 := by
  have hcs : (calculateResults i).costSavings = 0 := by
    simp [calculateResults, hd]
  have hfv : (calculateResults i).flexibilityValue = 0 := by
    simp [calculateResults, hf]
  have hpa : (calculateResults i).prepaymentAmount ≠ 0 := by
    have e : (calculateResults i).prepaymentAmount
        = i.annualWaferDemand * i.waferCost * (i.prepayment / 100) := rfl
    rw [e, hp]
    exact mul_ne_zero hbc (by norm_num)
  obtain ⟨e1, e2⟩ := roi_fin i hpa
  refine ⟨hcs, hfv, ?_, ?_⟩
  · rw [e1, hcs]
    norm_num
  · rw [e2, hcs, hfv]
    norm_num

/-- C7 witness at the default demand and wafer cost. -/
theorem c7_zero_discount_witness :
    (calculateResults zeroDiscountInputs).costSavings = 0
    ∧ (calculateResults zeroDiscountInputs).flexibilityValue = 0
    ∧ (calculateResults zeroDiscountInputs).baseROI = JSNum.fin 0
    ∧ (calculateResults zeroDiscountInputs).totalROI = JSNum.fin 0 :=
  c7_zero_discount zeroDiscountInputs rfl rfl rfl (by norm_num [zeroDiscountInputs])

/-- C8: the calculator is deterministic and stateless: two calls on inputs
that agree field by field return results that agree as records and field by
field. -/
theorem c8_deterministic (i j : CalculatorInputs)
    (h : i.annualWaferDemand = j.annualWaferDemand
      ∧ i.waferCost = j.waferCost
      ∧ i.prepayment = j.prepayment
      ∧ i.priceDiscount = j.priceDiscount
      ∧ i.flexibilityBand = j.flexibilityBand) :
    calculateResults i = calculateResults j
    ∧ (calculateResults i).baseCost = (calculateResults j).baseCost
    ∧ (calculateResults i).prepaymentAmount = (calculateResults j).prepaymentAmount
    ∧ (calculateResults i).costSavings = (calculateResults j).costSavings
    ∧ (calculateResults i).flexibilityValue = (calculateResults j).flexibilityValue
    ∧ (calculateResults i).baseROI = (calculateResults j).baseROI
    ∧ (calculateResults i).totalROI = (calculateResults j).totalROI := by
  obtain ⟨h1, h2, h3, h4, h5⟩ := h
  have hij : i = j := by
    cases i
    cases j
    simp_all
  subst hij
  exact ⟨rfl, rfl, rfl, rfl, rfl, rfl, rfl⟩

/-- C8 witness: two calls on the default inputs agree. -/
theorem c8_deterministic_witness :
    calculateResults defaultInputs = calculateResults defaultInputs :=
  (c8_deterministic defaultInputs defaultInputs ⟨rfl, rfl, rfl, rfl, rfl⟩).1

/-- C9: with a zero annual wafer demand or a zero wafer cost every monetary
output is zero and both ROIs are NaN (the 0/0 division is reached), whatever
the prepayment percentage. -/
theorem c9_zero_volume (i : CalculatorInputs)
    (h : i.annualWaferDemand = 0 ∨ i.waferCost = 0) :
    (calculateResults i).baseCost = 0
    ∧ (calculateResults i).prepaymentAmount = 0
    ∧ (calculateResults i).costSavings = 0
    ∧ (calculateResults i).flexibilityValue = 0
    ∧ (calculateResults i).baseROI = JSNum.nan
    ∧ (calculateResults i).totalROI = JSNum.nan := by
  have hbc : i.annualWaferDemand * i.waferCost = 0 := by
    rcases h with h | h <;> simp [h]
  simp [calculateResults, hbc, jsDiv, JSNum.mulQ]

/-- C9 witness: zero demand with 10 percent prepayment and the default
discount and band. -/
theorem c9_zero_volume_witness :
    (calculateResults zeroDemandInputs).baseCost = 0
    ∧ (calculateResults zeroDemandInputs).prepaymentAmount = 0
    ∧ (calculateResults zeroDemandInputs).baseROI = JSNum.nan
    ∧ (calculateResults zeroDemandInputs).totalROI = JSNum.nan := by
  have h := c9_zero_volume zeroDemandInputs (Or.inl rfl)
  exact ⟨h.1, h.2.1, h.2.2.2.2.1, h.2.2.2.2.2⟩

/-- C10: when the base cost and the prepayment percentage are both nonzero
the base cost cancels out of both ratios: baseROI is
(priceDiscount / prepayment) * 100 and totalROI is
((priceDiscount + 0.20 * flexibilityBand) / prepayment) * 100, so both ROIs
are independent of annualWaferDemand and waferCost. -/
theorem c10_cancellation (i : CalculatorInputs)
    (hbc : i.annualWaferDemand * i.waferCost ≠ 0)
    (hp : i.prepayment ≠ 0) :
    (calculateResults i).baseROI
      = JSNum.fin (i.priceDiscount / i.prepayment * 100)
    ∧ (calculateResults i).totalROI
      = JSNum.fin ((i.priceDiscount + (0.20 : ℚ) * i.flexibilityBand)
          / i.prepayment * 100) := by
  have hpa : (calculateResults i).prepaymentAmount ≠ 0 := by
    have e : (calculateResults i).prepaymentAmount
        = i.annualWaferDemand * i.waferCost * (i.prepayment / 100) := rfl
    rw [e]
    exact mul_ne_zero hbc (div_ne_zero hp (by norm_num))
  obtain ⟨e1, e2⟩ := roi_fin i hpa
  rw [e1, e2]
  have h02 : (0.20 : ℚ) = 20 / 100 := by norm_num
  constructor
  · simp only [calculateResults, JSNum.fin.injEq]
    field_simp
    ring
  · simp only [calculateResults, JSNum.fin.injEq, h02]
    field_simp
    ring

/-- C10 witness at the default inputs: baseROI is 5/10 times 100 and
totalROI is (5 + 0.20 times 30)/10 times 100. -/
theorem c10_cancellation_witness :
    (calculateResults defaultInputs).baseROI
      = JSNum.fin (defaultInputs.priceDiscount / defaultInputs.prepayment * 100)
    ∧ (calculateResults defaultInputs).totalROI
      = JSNum.fin ((defaultInputs.priceDiscount
            + (0.20 : ℚ) * defaultInputs.flexibilityBand)
          / defaultInputs.prepayment * 100) :=
  c10_cancellation defaultInputs (by norm_num [defaultInputs])
    (by norm_num [defaultInputs])
